import Mathlib

/-!
Verification of the segregated-free-list allocator in
src/malloclab-handout/mm.c against its design specification.

The C program is shallowly embedded as a state-passing functional program.
Memory is a word store indexed by byte address (every access in mm.c is a
4-byte-aligned `unsigned int` read or write), addresses and 32-bit words are
natural numbers, and the `mem_sbrk` heap-growth primitive of memlib is a
bump pointer bounded by a platform limit.  The `memmove` call in
`mm_realloc` is modelled as an event appended to a copy log (destination,
source, byte count); no metadata operation of the allocator ever reads the
payload bytes it would move, so the log captures the observable behaviour.
C pointer arithmetic below address 4 truncates at 0 in this model (the C
program would fault there; the only trace that reaches it has already
performed the state changes the corresponding theorem is about).
Loops that chase pointers through memory take an explicit fuel argument;
the fuel constants are far larger than any list arising in the traces and
theorems below, so fuel exhaustion never occurs in any evaluated term.
-/

set_option maxRecDepth 10000

namespace MallocLab

/-- Allocator state: the word store, the FREE_SEG_LISTS array (mm.c line 129),
the prologue block pointer (line 130), the memlib break pointer, the platform
heap limit, and the log of memmove events performed by mm_realloc. -/
structure AState where
  mem : Nat → Nat
  lists : Nat → Nat
  prologue : Nat
  brk : Nat
  heapMax : Nat
  copies : List (Nat × Nat × Nat)

/-- Word size in bytes (mm.c line 62). -/
def WSIZE : Nat := 4

/-- Doubleword size in bytes (mm.c line 63). -/
def DSIZE : Nat := 8

/-- Initial heap extension size (mm.c line 64). -/
def CHUNKSIZE : Nat := 4096

/-- Header plus footer overhead used by place (mm.c line 65). -/
def OVERHEAD : Nat := 16

/-- Number of segregated lists (mm.c line 67). -/
def SEG_LISTS : Nat := 20

/-- Reallocation buffer constant (mm.c line 68). -/
def REALLOC_BUFFER : Nat := 128

/-- GET macro (mm.c line 77): read the word at address p. -/
def GET (s : AState) (p : Nat) : Nat := s.mem p

/-- GET_SIZE macro (mm.c line 93): mask off the three low flag bits of a
32-bit word. -/
def GET_SIZE (s : AState) (p : Nat) : Nat := GET s p &&& 4294967288

/-- GET_ALLOC macro (mm.c line 94). -/
def GET_ALLOC (s : AState) (p : Nat) : Nat := GET s p &&& 1

/-- GET_TAG macro (mm.c line 95): the reallocation tag bit. -/
def GET_TAG (s : AState) (p : Nat) : Nat := GET s p &&& 2

/-- PACK macro (mm.c line 74). -/
def PACK (size alloc : Nat) : Nat := size ||| alloc

/-- Store a word at address p. -/
def writeWord (s : AState) (p v : Nat) : AState :=
  { s with mem := fun x => if x = p then v else s.mem x }

/-- PUT macro (mm.c line 80): store a word, preserving the reallocation tag
bit already present at the address. -/
def PUT (s : AState) (p v : Nat) : AState := writeWord s p (v ||| GET_TAG s p)

/-- CLEAR_PUT macro (mm.c line 83): store a word, clearing the tag bit. -/
def CLEAR_PUT (s : AState) (p v : Nat) : AState := writeWord s p v

/-- SET_PTR macro (mm.c line 86): store a free-list link. -/
def SET_PTR (s : AState) (p v : Nat) : AState := writeWord s p v

/-- SET_TAG macro (mm.c line 89). -/
def SET_TAG (s : AState) (p : Nat) : AState := writeWord s p (GET s p ||| 2)

/-- UNSET_TAG macro (mm.c line 90): clear bit 1 of the word at p. -/
def UNSET_TAG (s : AState) (p : Nat) : AState :=
  writeWord s p (GET s p - GET_TAG s p)

/-- HEAD macro (mm.c line 98): address of a block's header. -/
def HEAD (p : Nat) : Nat := p - 4

/-- FOOT macro (mm.c line 99): address of a block's footer. -/
def FOOT (s : AState) (p : Nat) : Nat := p + GET_SIZE s (HEAD p) - 8

/-- NEXT macro (mm.c line 102): address of the following block. -/
def NEXT (s : AState) (p : Nat) : Nat := p + GET_SIZE s (p - 4)

/-- PREV macro (mm.c line 103): address of the preceding block, via the
preceding block's footer. -/
def PREV (s : AState) (p : Nat) : Nat := p - GET_SIZE s (p - 8)

/-- PRECEDE macro (mm.c line 110): a free block's first embedded link. -/
def PRECEDE (s : AState) (p : Nat) : Nat := GET s p

/-- SUCCEED macro (mm.c line 111): a free block's second embedded link. -/
def SUCCEED (s : AState) (p : Nat) : Nat := GET s (p + 4)

/-- The memlib heap-growth primitive: extend the break by sz bytes and
return the base of the new region, or 0 (modelling the failure value) when
the platform limit would be exceeded.  It performs no write. -/
def mem_sbrk (s : AState) (sz : Nat) : AState × Nat :=
  if s.heapMax < s.brk + sz then (s, 0)
  else ({ s with brk := s.brk + sz }, s.brk)

/-- Block-size adjustment shared by mm_malloc (mm.c lines 181-185) and
mm_realloc (lines 257-261): at least 2*DSIZE, otherwise round up to a
multiple of DSIZE after adding DSIZE of boundary-tag overhead. -/
def adjSize (size : Nat) : Nat :=
  if size ≤ DSIZE then 2 * DSIZE
  else DSIZE * ((size + DSIZE + (DSIZE - 1)) / DSIZE)

/-- The bucket-selection loop shared by insert_node (mm.c lines 338-341),
remove_node (lines 388-391): shift size right until it is at most 1 or the
shift budget of SEG_LISTS-1 is used up.  Returns the residual shifted size
together with the selected list index; insert_node goes on to use the
residual (the C code destroys its size variable while shifting).
The fuel of 20 strictly exceeds the 19 possible iterations. -/
def bucketLoop : Nat → Nat → Nat → Nat × Nat
  | 0, size, list => (size, list)
  | fuel + 1, size, list =>
    if list < SEG_LISTS - 1 ∧ 1 < size then bucketLoop fuel (size >>> 1) (list + 1)
    else (size, list)

/-- Bucket index for a block size. -/
def listSelect (size : Nat) : Nat := (bucketLoop 20 size 0).2

/-- The insertion-point scan of insert_node (mm.c lines 344-348): walk the
PRECEDE chain while the (shifted) size is larger than the current entry's
block size, tracking the last entry passed. -/
def insertSearch (s : AState) (sz : Nat) : Nat → Nat → Nat → Nat × Nat
  | 0, sp, ip => (sp, ip)
  | fuel + 1, sp, ip =>
    if sp ≠ 0 ∧ GET_SIZE s (HEAD sp) < sz then
      insertSearch s sz fuel (PRECEDE s sp) sp
    else (sp, ip)

/-- Fuel for the free-list walks; larger than any list in this development. -/
def listFuel : Nat := 1000

/-- insert_node (mm.c lines 332-380): select the bucket (destroying size in
the process), scan for the insertion point with the shifted size, and splice
the block in with the four link-field cases of the C code. -/
def insert_node (s : AState) (ptr size : Nat) : AState :=
  let pr := bucketLoop 20 size 0
  let sz := pr.1
  let list := pr.2
  let res := insertSearch s sz listFuel (s.lists list) 0
  let sp := res.1
  let ip := res.2
  if sp ≠ 0 then
    if ip ≠ 0 then
      let s1 := SET_PTR s ptr sp
      let s2 := SET_PTR s1 (sp + 4) ptr
      let s3 := SET_PTR s2 (ptr + 4) ip
      SET_PTR s3 ip ptr
    else
      let s1 := SET_PTR s ptr sp
      let s2 := SET_PTR s1 (sp + 4) ptr
      let s3 := SET_PTR s2 (ptr + 4) 0
      { s3 with lists := fun i => if i = list then ptr else s3.lists i }
  else
    if ip ≠ 0 then
      let s1 := SET_PTR s ptr 0
      let s2 := SET_PTR s1 (ptr + 4) ip
      SET_PTR s2 ip ptr
    else
      let s1 := SET_PTR s ptr 0
      let s2 := SET_PTR s1 (ptr + 4) 0
      { s2 with lists := fun i => if i = list then ptr else s2.lists i }

/-- remove_node (mm.c lines 383-410): splice a block out of its bucket,
re-reading the link macros after each store exactly as the C sequence does. -/
def remove_node (s : AState) (ptr : Nat) : AState :=
  let size := GET_SIZE s (HEAD ptr)
  let list := (bucketLoop 20 size 0).2
  if PRECEDE s ptr ≠ 0 then
    if SUCCEED s ptr ≠ 0 then
      let s1 := SET_PTR s (PRECEDE s ptr + 4) (SUCCEED s ptr)
      SET_PTR s1 (SUCCEED s1 ptr) (PRECEDE s1 ptr)
    else
      let s1 := SET_PTR s (PRECEDE s ptr + 4) 0
      { s1 with lists := fun i => if i = list then PRECEDE s1 ptr else s1.lists i }
  else
    if SUCCEED s ptr ≠ 0 then
      SET_PTR s (SUCCEED s ptr) 0
    else
      { s with lists := fun i => if i = list then 0 else s.lists i }

/-- merge (mm.c lines 413-456): boundary-tag coalescing.  The early return
happens before the tag adjustment, and the final else-branch is taken
whenever neither of the two guarded cases applies, exactly as in the C. -/
def merge (s : AState) (ptr : Nat) : AState × Nat :=
  let prev_alloc := GET_ALLOC s (HEAD (PREV s ptr))
  let next_alloc := GET_ALLOC s (HEAD (NEXT s ptr))
  let size := GET_SIZE s (HEAD ptr)
  if prev_alloc ≠ 0 ∧ next_alloc ≠ 0 then (s, ptr)
  else
    let prev_alloc := if GET_TAG s (HEAD (PREV s ptr)) ≠ 0 then 1 else prev_alloc
    let s := remove_node s ptr
    if prev_alloc ≠ 0 ∧ next_alloc = 0 then
      let s := remove_node s (NEXT s ptr)
      let size := size + GET_SIZE s (HEAD (NEXT s ptr))
      let s := PUT s (HEAD ptr) (PACK size 0)
      let s := PUT s (FOOT s ptr) (PACK size 0)
      (insert_node s ptr size, ptr)
    else if prev_alloc = 0 ∧ next_alloc ≠ 0 then
      let s := remove_node s (PREV s ptr)
      let size := size + GET_SIZE s (HEAD (PREV s ptr))
      let s := PUT s (FOOT s ptr) (PACK size 0)
      let s := PUT s (HEAD (PREV s ptr)) (PACK size 0)
      let p2 := PREV s ptr
      (insert_node s p2 size, p2)
    else
      let s := remove_node s (PREV s ptr)
      let s := remove_node s (NEXT s ptr)
      let size := size + GET_SIZE s (HEAD (PREV s ptr)) + GET_SIZE s (HEAD (NEXT s ptr))
      let s := PUT s (HEAD (PREV s ptr)) (PACK size 0)
      let s := PUT s (FOOT s (NEXT s ptr)) (PACK size 0)
      let p2 := PREV s ptr
      (insert_node s p2 size, p2)

/-- place (mm.c lines 459-479): set boundary tags for an allocation,
splitting off the remainder as a new free block when it is large enough. -/
def place (s : AState) (ptr size_x : Nat) : AState :=
  let ptr_size := GET_SIZE s (HEAD ptr)
  let remainder := ptr_size - size_x
  let s := remove_node s ptr
  if OVERHEAD ≤ remainder then
    let s := PUT s (HEAD ptr) (PACK size_x 1)
    let s := PUT s (FOOT s ptr) (PACK size_x 1)
    let s := CLEAR_PUT s (HEAD (NEXT s ptr)) (PACK remainder 0)
    let s := CLEAR_PUT s (FOOT s (NEXT s ptr)) (PACK remainder 0)
    insert_node s (NEXT s ptr) remainder
  else
    let s := PUT s (HEAD ptr) (PACK ptr_size 1)
    PUT s (FOOT s ptr) (PACK ptr_size 1)

/-- Even-word alignment of a heap extension request (mm.c lines 308-312). -/
def sbrkAlign (size : Nat) : Nat :=
  let words := size / WSIZE
  if words % 2 = 1 then (words + 1) * WSIZE else words * WSIZE

/-- incr_heap (mm.c lines 305-328): extend the heap, format the new region
as a free block with a fresh epilogue, insert it, and coalesce. -/
def incr_heap (s : AState) (size : Nat) : AState × Nat :=
  let size_x := sbrkAlign size
  let pr := mem_sbrk s size_x
  let s1 := pr.1
  let ptr := pr.2
  if ptr = 0 then (s1, 0)
  else
    let s2 := CLEAR_PUT s1 (HEAD ptr) (PACK size_x 0)
    let s3 := CLEAR_PUT s2 (FOOT s2 ptr) (PACK size_x 0)
    let s4 := CLEAR_PUT s3 (HEAD (NEXT s3 ptr)) (PACK 0 1)
    let s5 := insert_node s4 ptr size_x
    merge s5 ptr

/-- The inner free-list walk of mm_malloc (mm.c lines 193-197): skip entries
that are too small or carry the reallocation tag. -/
def searchWalk (s : AState) (size_x : Nat) : Nat → Nat → Nat
  | 0, _ => 0
  | fuel + 1, p =>
    if p ≠ 0 ∧ (GET_SIZE s (HEAD p) < size_x ∨ GET_TAG s (HEAD p) ≠ 0) then
      searchWalk s size_x fuel (PRECEDE s p)
    else p

/-- The bucket loop of mm_malloc (mm.c lines 189-205): enter a bucket once
the shifted size reaches 1 (or at the final catch-all bucket), walk it, and
keep the first hit.  Fuel 21 strictly exceeds the 20 possible iterations. -/
def mallocLoop (s : AState) (size_x : Nat) : Nat → Nat → Nat → Nat
  | 0, _, _ => 0
  | fuel + 1, size, list =>
    if list < SEG_LISTS then
      if list = SEG_LISTS - 1 ∨ (size ≤ 1 ∧ s.lists list ≠ 0) then
        let p := searchWalk s size_x listFuel (s.lists list)
        if p ≠ 0 then p else mallocLoop s size_x fuel (size >>> 1) (list + 1)
      else mallocLoop s size_x fuel (size >>> 1) (list + 1)
    else 0

/-- mm_malloc (mm.c lines 169-219). -/
def mm_malloc (s : AState) (size : Nat) : AState × Nat :=
  if size = 0 then (s, 0)
  else
    let size_x := adjSize size
    let ptr := mallocLoop s size_x 21 size_x 0
    if ptr = 0 then
      let incr_size := max size_x CHUNKSIZE
      let pr := incr_heap s incr_size
      if pr.2 = 0 then (pr.1, 0) else (place pr.1 pr.2 size_x, pr.2)
    else (place s ptr size_x, ptr)

/-- mm_free (mm.c lines 222-241). -/
def mm_free (s : AState) (ptr : Nat) : AState :=
  let size := GET_SIZE s (HEAD ptr)
  let s1 := UNSET_TAG s (HEAD (NEXT s ptr))
  let s2 := PUT s1 (HEAD ptr) (PACK size 0)
  let s3 := PUT s2 (FOOT s2 ptr) (PACK size 0)
  let s4 := insert_node s3 ptr size
  (merge s4 ptr).1

/-- Final step of mm_realloc (mm.c lines 293-301): recompute the block
buffer from the current header and tag the following block when less than
twice REALLOC_BUFFER remains. -/
def finishTag (s : AState) (new_ptr new_size : Nat) : AState × Nat :=
  if (GET_SIZE s (HEAD new_ptr) : Int) - (new_size : Int) < 2 * (REALLOC_BUFFER : Int) then
    (SET_TAG s (HEAD (NEXT s new_ptr)), new_ptr)
  else (s, new_ptr)

/-- In-place extension arm of mm_realloc (mm.c lines 282-286): absorb the
following block whole, then fall through to the tagging step. -/
def inPlaceExtend (s : AState) (ptr new_size : Nat) (remainder : Int) : AState × Nat :=
  let s1 := remove_node s (NEXT s ptr)
  let s2 := CLEAR_PUT s1 (HEAD ptr) (PACK (new_size + remainder.toNat) 1)
  let s3 := CLEAR_PUT s2 (FOOT s2 ptr) (PACK (new_size + remainder.toNat) 1)
  finishTag s3 ptr new_size

/-- mm_realloc (mm.c lines 244-302).  block_realloc_buffer and remainder are
C ints, modelled as integers. -/
def mm_realloc (s : AState) (ptr size : Nat) : AState × Nat :=
  if size = 0 then (s, 0)
  else
    let new_size := adjSize size + REALLOC_BUFFER
    if (GET_SIZE s (HEAD ptr) : Int) - (new_size : Int) < 0 then
      if GET_ALLOC s (HEAD (NEXT s ptr)) = 0 ∨ GET_SIZE s (HEAD (NEXT s ptr)) = 0 then
        let remainder : Int :=
          (GET_SIZE s (HEAD ptr) : Int) + (GET_SIZE s (HEAD (NEXT s ptr)) : Int) - (new_size : Int)
        if remainder < 0 then
          let incr_size := max (-remainder).toNat CHUNKSIZE
          let pr := incr_heap s incr_size
          if pr.2 = 0 then (pr.1, 0)
          else inPlaceExtend pr.1 ptr new_size (remainder + (incr_size : Int))
        else inPlaceExtend s ptr new_size remainder
      else
        let mp := mm_malloc s (new_size - DSIZE)
        let s2 := { mp.1 with copies := (mp.2, ptr, min size new_size) :: mp.1.copies }
        let s3 := mm_free s2 ptr
        finishTag s3 mp.2 new_size
    else finishTag s ptr new_size

/-- mm_init (mm.c lines 140-165). -/
def mm_init (s : AState) : AState × Bool :=
  let s0 := { s with lists := fun _ => 0 }
  let pr := mem_sbrk s0 (4 * WSIZE)
  let s1 := pr.1
  let hb := pr.2
  if hb = 0 then (s1, false)
  else
    let s2 := CLEAR_PUT s1 hb 0
    let s3 := CLEAR_PUT s2 (hb + 1 * WSIZE) (PACK DSIZE 1)
    let s4 := CLEAR_PUT s3 (hb + 2 * WSIZE) (PACK DSIZE 1)
    let s5 := CLEAR_PUT s4 (hb + 3 * WSIZE) (PACK 0 1)
    let s6 := { s5 with prologue := hb + DSIZE }
    let qr := incr_heap s6 CHUNKSIZE
    if qr.2 = 0 then (qr.1, false) else (qr.1, true)

/-!  Specification-side observers.  These are not part of mm.c; they read
the heap and free-list structure so that the spec's properties ("walking the
heap block-by-block", "the bucket's list") can be stated. -/

/-- One block as seen by a heap walk: address, size, allocation bit, tag bit. -/
structure BlockInfo where
  addr : Nat
  bsize : Nat
  balloc : Nat
  btag : Nat
deriving DecidableEq, Repr

/-- Walk the heap block-by-block from a given block address until a
zero-size (epilogue) header is reached. -/
def heapBlocks (s : AState) : Nat → Nat → List BlockInfo
  | 0, _ => []
  | fuel + 1, p =>
    let sz := GET_SIZE s (HEAD p)
    if sz = 0 then []
    else ⟨p, sz, GET_ALLOC s (HEAD p), GET_TAG s (HEAD p)⟩ :: heapBlocks s fuel (p + sz)

/-- Walk the heap from the first block after the prologue. -/
def heapScan (s : AState) : List BlockInfo := heapBlocks s 100 (s.prologue + DSIZE)

/-- Does a heap walk contain two consecutive free blocks? -/
def anyAdjFree : List BlockInfo → Bool
  | a :: b :: t => (a.balloc == 0 && b.balloc == 0) || anyAdjFree (b :: t)
  | _ => false

/-- Does a heap walk contain two consecutive free blocks of which the
earlier one does not carry the reallocation tag? -/
def anyAdjFreeUntagged : List BlockInfo → Bool
  | a :: b :: t => (a.balloc == 0 && b.balloc == 0 && a.btag == 0) || anyAdjFreeUntagged (b :: t)
  | _ => false

/-- Read a bucket's PRECEDE chain: chainSeg s p L q holds when following the
PRECEDE links from pointer value p visits exactly the blocks of L and ends
with link value q. -/
def chainSeg (s : AState) : Nat → List Nat → Nat → Bool
  | p, [], q => p == q
  | p, a :: l, q => p == a && a != 0 && chainSeg s (PRECEDE s a) l q

/-- A bucket's complete chain, terminated by the null link. -/
def chainIs (s : AState) (p : Nat) (L : List Nat) : Bool := chainSeg s p L 0

/-- A fresh machine state before mm_init: empty memory and lists, break at
address 8 (so that all payloads are 8-byte aligned, as memlib guarantees),
and the given platform heap limit. -/
def startState (limit : Nat) : AState :=
  { mem := fun _ => 0, lists := fun _ => 0, prologue := 0, brk := 8
    heapMax := limit, copies := [] }

end MallocLab

namespace MallocLab

/-!  Helper lemmas about the final tagging step of mm_realloc and about the
size-adjustment arithmetic.  These are shared by several theorems below. -/

theorem finishTag_snd (s : AState) (np ns : Nat) : (finishTag s np ns).2 = np := by
  unfold finishTag; split <;> rfl

theorem finishTag_copies (s : AState) (np ns : Nat) :
    (finishTag s np ns).1.copies = s.copies := by
  unfold finishTag; split <;> rfl

theorem adjSize_self_le (n : Nat) : n ≤ adjSize n := by
  unfold adjSize DSIZE; split <;> omega

/-- State after mm_init on a fresh heap (prologue at 16; one free block of
4096 bytes at payload address 24). -/
def sInit : AState := (mm_init (startState 1048576)).1

/-- Allocation of 500 bytes from the initial heap: returns payload 24 with
block size 512, leaving a 3584-byte free block at 536. -/
def mBig : AState × Nat := mm_malloc sInit 500

/-- Allocation of 50 bytes from the initial heap: payload 24, block size 64. -/
def stX : AState × Nat := mm_malloc sInit 50

/-- A second 50-byte allocation right after the first: payload 88. -/
def stXY : AState × Nat := mm_malloc stX.1 50

/-- Claim C1 trace: three allocations (24, 536, 648), the middle one freed,
then a resize of the first that sets the reallocation tag on the free middle
block at 536.  Freeing 648 afterwards leaves the tagged free block at 536
unmerged next to the freed block. -/
def c1b : AState × Nat := mm_malloc mBig.1 100

def c1c : AState × Nat := mm_malloc c1b.1 100

def c1free : AState := mm_free c1c.1 c1b.2

def c1tag : AState × Nat := mm_realloc c1free mBig.2 200

/-- Claim C4 trace: blocks of sizes 48 (at 24) and 32 (at 184), separated by
allocated blocks, freed smaller-first so that both land in bucket 5. -/
def c4a : AState × Nat := mm_malloc sInit 40

def c4b : AState × Nat := mm_malloc c4a.1 100

def c4c : AState × Nat := mm_malloc c4b.1 24

def c4d : AState × Nat := mm_malloc c4c.1 100

def c4free1 : AState := mm_free c4d.1 c4c.2

def c4end : AState := mm_free c4free1 c4a.2

/-- Claim C5 trace: resizing the 512-byte block at 24 tags the free 3584-byte
successor block at 536 without moving anything. -/
def c5tag : AState × Nat := mm_realloc mBig.1 mBig.2 200

/-- Claim C7 trace: a heap whose platform limit 4120 is exhausted after
mm_init, fully allocated by two blocks, so any further growth fails. -/
def c7init : AState := (mm_init (startState 4120)).1

def c7a : AState × Nat := mm_malloc c7init 500

def c7b : AState × Nat := mm_malloc c7a.1 3576

/-- Claim C8 trace: like the C1 trace but the third block occupies the whole
rest of the heap, so the epilogue follows it; after the resize tags the free
block at 536, freeing 648 reaches merge with a tagged free predecessor. -/
def c8c : AState × Nat := mm_malloc c1b.1 3464

def c8free : AState := mm_free c8c.1 c1b.2

def c8tag : AState × Nat := mm_realloc c8free mBig.2 200

/-- Claim C1 (code evaluation): walking the heap immediately after the
release of block 648 in the tagged trace finds two consecutive free blocks
(the tagged free block at 536 and the freshly coalesced block at 648); one
further release of block 24 clears 536's tag through mm_free's UNSET_TAG,
merges 536 into 24, and leaves two consecutive free blocks of which the
earlier carries no tag at all.  The claimed invariant fails after a release,
and no resize-tag-qualified weakening of it holds either: mm_realloc tags
free blocks, and coalescing then cannot maintain adjacency-freedom. -/
theorem release_leaves_adjacent_free_blocks :
    c1c.2 = 648 ∧ anyAdjFree (heapScan (mm_free c1tag.1 648)) = true ∧
    anyAdjFreeUntagged (heapScan (mm_free (mm_free c1tag.1 648) 24)) = true := by
  refine ⟨by decide, by decide, by decide⟩

/-- Claim C2 (counterexample): block 24 has block size 64, so a resize to 40
bytes is a shrink (40 is at most the 56-byte payload), yet with the
allocated block 88 following it mm_realloc relocates: it returns the new
address 152 and copies the payload, because 64 is below the slack-padded
target adjSize 40 + 128 = 176. -/
theorem resize_shrink_can_relocate :
    GET_SIZE stXY.1 (HEAD 24) = 64 ∧ 40 ≤ GET_SIZE stXY.1 (HEAD 24) - DSIZE ∧
    (mm_realloc stXY.1 24 40).2 = 152 ∧ ¬(mm_realloc stXY.1 24 40).2 = 24 ∧
    (mm_realloc stXY.1 24 40).1.copies = [(152, 24, 40)] := by
  refine ⟨by decide, by decide, by decide, by decide, by decide⟩

/-- Claim C2 (amended): resize(p, n) returns the same address p and performs
no copy whenever p's current block size already covers the adjusted target
size adjSize n + REALLOC_BUFFER; below that threshold the block may move. -/
theorem resize_in_place_when_size_covers_target (s : AState) (p n : Nat)
    (h0 : 0 < n) (hsz : adjSize n + REALLOC_BUFFER ≤ GET_SIZE s (HEAD p)) :
    (mm_realloc s p n).2 = p ∧ (mm_realloc s p n).1.copies = s.copies := by
  have hne : ¬ n = 0 := by omega
  have hbuf : ¬ ((GET_SIZE s (HEAD p) : Int) - ((adjSize n + REALLOC_BUFFER : Nat) : Int) < 0) := by
    push_cast
    omega
  unfold mm_realloc
  rw [if_neg hne]
  simp only
  rw [if_neg hbuf]
  exact ⟨finishTag_snd s p _, finishTag_copies s p _⟩

/-- Witness for the amended C2 theorem: the 512-byte block at 24 covers the
target for a 40-byte request, and resize indeed stays in place. -/
theorem resize_in_place_when_size_covers_target_witness :
    0 < 40 ∧ adjSize 40 + REALLOC_BUFFER ≤ GET_SIZE mBig.1 (HEAD 24) ∧
    ((mm_realloc mBig.1 24 40).2 = 24 ∧ (mm_realloc mBig.1 24 40).1.copies = mBig.1.copies) :=
  ⟨by decide, by decide, resize_in_place_when_size_covers_target mBig.1 24 40 (by decide) (by decide)⟩

/-- Claim C3 (counterexample): block 24 has payload capacity 56, yet
resize(24, 100) records a copy of 100 bytes, not min(56, 100) = 56 bytes:
the C expression MIN(size, new_size) compares the request with the
slack-padded target, never with the old payload size. -/
theorem resize_copy_exceeds_old_payload :
    GET_SIZE stXY.1 (HEAD 24) - DSIZE = 56 ∧
    (mm_realloc stXY.1 24 100).1.copies = [(152, 24, 100)] ∧
    ¬(100 = min 56 100) := by
  refine ⟨by decide, by decide, by decide⟩

/-- Claim C3 (amended): the relocation path copies exactly
min(new requested size, adjSize request + REALLOC_BUFFER) bytes, which
always equals the new requested size (the adjusted target exceeds every
request), as the recorded copy of 100 bytes in the trace shows. -/
theorem resize_copy_length_is_requested :
    (∀ n : Nat, 0 < n → min n (adjSize n + REALLOC_BUFFER) = n) ∧
    (mm_realloc stXY.1 24 100).1.copies = [(152, 24, 100)] := by
  constructor
  · intro n h
    have := adjSize_self_le n
    unfold REALLOC_BUFFER
    omega
  · decide

/-- Witness for the amended C3 theorem at the concrete request 100. -/
theorem resize_copy_length_is_requested_witness :
    0 < 100 ∧ min 100 (adjSize 100 + REALLOC_BUFFER) = 100 :=
  ⟨by decide, resize_copy_length_is_requested.1 100 (by decide)⟩

/-- Claim C4 (code evaluation): after freeing the 32-byte block at 184 and
then the 48-byte block at 24, bucket 5 holds the chain [24, 184] - the
later, larger block sits at the head, in front of the smaller one.
insert_node destroys its size variable while selecting the bucket, so its
ordered-insertion scan compares a shifted value of at most 1 and never
advances: every insertion is at the bucket head and the claimed
ascending-size splice never happens. -/
theorem insert_places_new_block_at_bucket_head :
    c4a.2 = 24 ∧ c4c.2 = 184 ∧
    GET_SIZE c4end (HEAD 24) = 48 ∧ GET_SIZE c4end (HEAD 184) = 32 ∧
    listSelect 48 = 5 ∧ listSelect 32 = 5 ∧
    chainIs c4end (c4end.lists 5) [24, 184] = true := by
  refine ⟨by decide, by decide, by decide, by decide, by decide, by decide, by decide⟩

/-- Claim C5 (code evaluation): immediately before the call, block 536 is
free and carries the resize-tag (set by the preceding resize of block 24);
mm_malloc 100 nevertheless returns 536, because the heap-extension path
coalesces the new region into the tagged free predecessor and place hands
out the merged block.  The free-list search itself skipped 536. -/
theorem alloc_returns_tagged_free_block :
    GET_ALLOC c5tag.1 (HEAD 536) = 0 ∧ GET_TAG c5tag.1 (HEAD 536) = 2 ∧
    adjSize 100 ≤ GET_SIZE c5tag.1 (HEAD 536) ∧
    (mm_malloc c5tag.1 100).2 = 536 := by
  refine ⟨by decide, by decide, by decide, by decide⟩

/-- Claim C6: a zero-size request is a complete no-op for both mm_malloc and
mm_realloc: the returned address is null and the state - heap words, free
list index, prologue, break, copy log - is returned unchanged. -/
theorem zero_size_requests_are_noops :
    (∀ s : AState, mm_malloc s 0 = (s, 0)) ∧
    (∀ (s : AState) (p : Nat), mm_realloc s p 0 = (s, 0)) :=
  ⟨fun _ => rfl, fun _ _ => rfl⟩

/-- Claim C7 (code evaluation): on the exhausted heap, resize of the
allocated block 24 (whose successor 536 is allocated) enters the relocation
path, the inner mm_malloc fails for lack of heap, and mm_realloc returns
null - but it has already logged a copy to the null address and released
block 24, whose header is now marked free: the failure is not atomic. -/
theorem resize_growth_failure_frees_old_block :
    (mm_realloc c7b.1 24 600).2 = 0 ∧
    GET_ALLOC c7b.1 (HEAD 24) = 1 ∧
    GET_ALLOC (mm_realloc c7b.1 24 600).1 (HEAD 24) = 0 ∧
    (mm_realloc c7b.1 24 600).1.copies = [(0, 24, 600)] := by
  refine ⟨by decide, by decide, by decide, by decide⟩

/-- Claim C8 (code evaluation): before the release of block 648, block 536
is free, resize-tagged and 112 bytes; after the release its header spans
3584 bytes: merge absorbed the tagged predecessor (together with the
epilogue) through its final else-branch, although its own comment says a
tagged previous block must not be merged.  The tag adjustment happens after
the early-return test, so the case tagged-free-predecessor with allocated
successor falls into the merge-both branch. -/
theorem merge_absorbs_tagged_predecessor :
    GET_ALLOC c8tag.1 (HEAD 536) = 0 ∧ GET_TAG c8tag.1 (HEAD 536) = 2 ∧
    GET_SIZE c8tag.1 (HEAD 536) = 112 ∧
    GET_SIZE (mm_free c8tag.1 648) (HEAD 536) = 3584 ∧
    GET_ALLOC (mm_free c8tag.1 648) (HEAD 536) = 0 := by
  refine ⟨by decide, by decide, by decide, by decide, by decide⟩

end MallocLab
